import Mathlib

/-!
Verification of the tarpc-wasm demo repository: a declared RPC service
contract (src/rpc/src/lib.rs), a server handler (src/server/src/service_impl.rs)
and a wasm UI client (src/client/src/main.rs).  Pure fragments are embedded as
Lean functions; a spawned async block is embedded as a function from the
awaited dispatch outcome to the messages it sends back to the UI model,
with `none` standing for a Rust panic (`unwrap` on `Err`).
-/

set_option maxRecDepth 4096

/-- Modelled from the spec: the dispatch-level error taxonomy (the tarpc
dispatcher is an external crate, not under src/); a dispatch failure is the
transport closing or the call context expiring. -/
inductive RpcError
  | shutdown
  | deadlineExceeded
deriving DecidableEq, Repr

/-- Per-call context (tarpc context::Context); the handlers under src/ ignore
every field of it, so only a deadline placeholder is kept. -/
structure Context where
  deadline : Nat
deriving DecidableEq, Repr

/-- Outcome of awaiting a stub call: either a dispatch-level error, or the
Result value returned by the remote handler (Rust Result of String, String,
with Except.error as the Err side). -/
abbrev DispatchResult := Except RpcError (Except String String)

deriving instance DecidableEq for Except

/-! ## Server handlers, from src/server/src/service_impl.rs -/

/-- WorldImpl::ping from src/server/src/service_impl.rs lines 14-17: logs and
returns Ok of the string Pong. -/
def WorldImpl.ping (_ctx : Context) : Except String String :=
  Except.ok "Pong"

/-- WorldImpl::echo from src/server/src/service_impl.rs lines 18-21: logs and
returns Ok of its argument unchanged. -/
def WorldImpl.echo (_ctx : Context) (value : String) : Except String String :=
  Except.ok value

/-- WorldImpl::delay from src/server/src/service_impl.rs lines 22-27: sleeps
for the given number of seconds (time is irrelevant to the returned value)
and returns Ok of the formatted string. -/
def WorldImpl.delay (_ctx : Context) (duration : Nat) : Except String String :=
  Except.ok ("Delayed for " ++ toString duration ++ " seconds")

/-! ## Service descriptor, from src/rpc/src/lib.rs -/

/-- The two Rust types appearing in the World service signatures. -/
inductive RpcType
  | stringT
  | u64T
deriving DecidableEq, Repr

/-- Signature of one declared RPC operation: its name, parameter types (the
context parameter is implicit in tarpc and omitted), and the Ok/Err component
types of its Result return type. -/
structure OpSig where
  name : String
  params : List RpcType
  okType : RpcType
  errType : RpcType
deriving DecidableEq, Repr

/-- The service descriptor declared by trait World in src/rpc/src/lib.rs
lines 4-10: ping() -> Result of String, String; echo(String); delay(u64). -/
def worldDescriptor : List OpSig :=
  [⟨"ping", [], RpcType.stringT, RpcType.stringT⟩,
   ⟨"echo", [RpcType.stringT], RpcType.stringT, RpcType.stringT⟩,
   ⟨"delay", [RpcType.u64T], RpcType.stringT, RpcType.stringT⟩]

/-- The operation set implemented by WorldImpl in
src/server/src/service_impl.rs lines 11-27: exactly ping, echo, delay with
the signatures read off the impl block (context parameter omitted). -/
def worldImplOps : List OpSig :=
  [⟨"ping", [], RpcType.stringT, RpcType.stringT⟩,
   ⟨"echo", [RpcType.stringT], RpcType.stringT, RpcType.stringT⟩,
   ⟨"delay", [RpcType.u64T], RpcType.stringT, RpcType.stringT⟩]

/-- The callable method set of the generated WorldClient stub, read off its
call sites in src/client/src/main.rs: client.ping(ctx), client.echo(ctx,
value: String), client.delay(ctx, duration: u64), each awaited to a
Result of String, String. -/
def worldClientOps : List OpSig :=
  [⟨"ping", [], RpcType.stringT, RpcType.stringT⟩,
   ⟨"echo", [RpcType.stringT], RpcType.stringT, RpcType.stringT⟩,
   ⟨"delay", [RpcType.u64T], RpcType.stringT, RpcType.stringT⟩]

/-! ## Client UI model, from src/client/src/main.rs -/

/-- Tasks handed to spawn_local by the Model methods in
src/client/src/main.rs; each constructor records which async block was
spawned and the data moved into it. -/
inductive SpawnedTask
  | pingCall
  | echoCall (value : String)
  | delayCall (duration : Nat)
  | connectTask
  | dispatchTask
deriving DecidableEq, Repr

/-- Msg from src/client/src/main.rs lines 29-40.  An InputEvent is modelled
by the string value of its target input element (the DOM target/dyn_into
unwraps are outside the embedding). -/
inductive Msg
  | connect
  | connected
  | ping
  | updateEcho (value : String)
  | updateDelay (value : String)
  | updateEchoResult (s : String)
  | updateDelayResult (s : String)
  | echo
  | delay
  | redraw
deriving DecidableEq, Repr

/-- Model from src/client/src/main.rs lines 18-27; the yew link is modelled
implicitly (tasks return the list of messages they send through it), and the
shared client cell is modelled by whether a client is stored. -/
structure Model where
  delay : Nat
  delay_result : String
  client : Option Unit
  echo_value : String
  echo_result : String
  connected : Bool
deriving DecidableEq, Repr

/-- Component::create from src/client/src/main.rs lines 120-130. -/
def Model.create : Model :=
  { delay := 30,
    delay_result := "Type number in input and press Delay",
    client := none,
    echo_value := "",
    echo_result := "Type string in input and press Echo",
    connected := false }

/-- Synchronous part of Model::ping, src/client/src/main.rs lines 67-80: if
connected, clone the client handle and spawn the ping async block, then
return at once; the receiver is immutable (&self), so the model is returned
unchanged. -/
def Model.pingStep (m : Model) : Model × List SpawnedTask :=
  if m.connected then (m, [SpawnedTask.pingCall]) else (m, [])

/-- Synchronous part of Model::echo, src/client/src/main.rs lines 82-97. -/
def Model.echoStep (m : Model) (value : String) : Model × List SpawnedTask :=
  if m.connected then (m, [SpawnedTask.echoCall value]) else (m, [])

/-- Synchronous part of Model::delay, src/client/src/main.rs lines 99-116. -/
def Model.delayStep (m : Model) (d : Nat) : Model × List SpawnedTask :=
  if m.connected then (m, [SpawnedTask.delayCall d]) else (m, [])

/-- The async block spawned by Model::ping, src/client/src/main.rs lines
70-76, as a function of the stored client and the awaited dispatch outcome:
if no client is stored the borrow yields None and nothing happens (no RPC is
performed, so the result argument is unused on that branch); otherwise the
code unwraps the dispatch result (none = panic) and, on a handler Ok, only
logs; no message is ever sent to the model. -/
def pingTask (client : Option Unit) (r : DispatchResult) : Option (List Msg) :=
  match client with
  | none => some []
  | some _ =>
    match r with
    | Except.error _ => none
    | Except.ok (Except.ok _) => some []
    | Except.ok (Except.error _) => some []

/-- The async block spawned by Model::echo, src/client/src/main.rs lines
86-93: unwraps the dispatch result; on handler Ok it sends UpdateEchoResult
with the string unchanged; a handler Err falls off the if-let and is
dropped. -/
def echoTask (client : Option Unit) (r : DispatchResult) : Option (List Msg) :=
  match client with
  | none => some []
  | some _ =>
    match r with
    | Except.error _ => none
    | Except.ok (Except.ok msg) => some [Msg.updateEchoResult msg]
    | Except.ok (Except.error _) => some []

/-- The async block spawned by Model::delay, src/client/src/main.rs lines
103-113: unwraps the dispatch result; on handler Ok it sends
UpdateDelayResult with the string unchanged; on handler Err it sends the
fixed string built from the moved-in delay value, not the handler error. -/
def delayTask (client : Option Unit) (d : Nat) (r : DispatchResult) :
    Option (List Msg) :=
  match client with
  | none => some []
  | some _ =>
    match r with
    | Except.error _ => none
    | Except.ok (Except.ok msg) => some [Msg.updateDelayResult msg]
    | Except.ok (Except.error _) =>
        some [Msg.updateDelayResult ("Delay failed " ++ toString d)]

/-- The dispatch task spawned inside Model::connect, src/client/src/main.rs
line 57: awaits the dispatch future and unwraps it, so a dispatch future
resolving to Err panics the task (none). -/
def dispatchTaskRun (outcome : Except RpcError Unit) : Option Unit :=
  match outcome with
  | Except.ok u => some u
  | Except.error _ => none

/-- One step of Rust u64 parsing: consume decimal digits, failing on a
non-digit or on overflow past 2^64 - 1 (u64::from_str checks overflow at
each accumulated step). -/
def parseU64Digits : List Char → Nat → Option Nat
  | [], acc => some acc
  | c :: rest, acc =>
      if c.isDigit then
        let acc2 := acc * 10 + (c.toNat - '0'.toNat)
        if acc2 < 2 ^ 64 then parseU64Digits rest acc2 else none
      else none

/-- Rust str::parse::<u64>: an optional leading plus sign followed by one or
more ASCII digits whose value fits in u64; everything else is an error
(none). -/
def parseU64 (s : String) : Option Nat :=
  match s.toList with
  | [] => none
  | '+' :: rest => if rest.isEmpty then none else parseU64Digits rest 0
  | cs => parseU64Digits cs 0

/-- Component::update from src/client/src/main.rs lines 135-161, returning
the updated model and the tasks spawned while processing the message; none
models the panic of parse().unwrap() on UpdateDelay when the input string
does not parse as a u64. -/
def Model.update (m : Model) (msg : Msg) : Option (Model × List SpawnedTask) :=
  match msg with
  | Msg.connect => some (m, [SpawnedTask.connectTask])
  | Msg.ping => some m.pingStep
  | Msg.updateEcho v => some ({ m with echo_value := v }, [])
  | Msg.updateDelay v =>
      match parseU64 v with
      | some n => some ({ m with delay := n }, [])
      | none => none
  | Msg.updateDelayResult r => some ({ m with delay_result := r }, [])
  | Msg.echo => some (m.echoStep m.echo_value)
  | Msg.delay => some (m.delayStep m.delay)
  | Msg.redraw => some (m, [])
  | Msg.updateEchoResult r => some ({ m with echo_result := r }, [])
  | Msg.connected => some ({ m with connected := true }, [])

/-! ## Client dispatcher correlation, modelled from the spec -/

/-- Modelled from the spec: the Server Dispatcher read loop (the tarpc
dispatchers are an external crate, not under src/) applied to echo requests:
each request envelope (request_id, argument) is answered by a response
envelope (request_id, handler outcome) carrying the bound echo handler's
result for that request. -/
def serverResponses (ctx : Context) (reqs : List (Nat × String)) :
    List (Nat × Except String String) :=
  reqs.map (fun r => (r.1, WorldImpl.echo ctx r.2))

/-- Modelled from the spec: the Client Dispatcher routes an incoming response
to the pending call with the matching request_id; the waiter for a given id
receives the payload of the response whose id matches. -/
def deliverTo (rs : List (Nat × Except String String)) (id : Nat) :
    Option (Except String String) :=
  (rs.find? (fun p => p.1 == id)).map Prod.snd

/-! ## Helper lemmas -/

/-- Routing a response list whose request ids are pairwise distinct delivers
to a waiter exactly the payload of its own response. -/
lemma deliverTo_eq_of_mem :
    ∀ (rs : List (Nat × Except String String)) (id : Nat)
      (x : Except String String),
      (id, x) ∈ rs → (rs.map Prod.fst).Nodup → deliverTo rs id = some x := by
  intro rs
  induction rs with
  | nil => intro id x hmem _; cases hmem
  | cons hd tl ih =>
      obtain ⟨a, b⟩ := hd
      intro id x hmem hnd
      simp only [List.map_cons, List.nodup_cons] at hnd
      rcases List.mem_cons.mp hmem with h | h
      · rw [Prod.mk.injEq] at h
        obtain ⟨h1, h2⟩ := h
        subst h1
        subst h2
        simp [deliverTo, List.find?_cons_of_pos]
      · have hne : a ≠ id := by
          intro he
          subst he
          exact hnd.1 (by simpa using List.mem_map_of_mem Prod.fst h)
        have hrec := ih id x h hnd.2
        unfold deliverTo at hrec ⊢
        rw [List.find?_cons_of_neg]
        · exact hrec
        · simp [hne]

/-! ## Claim theorems -/

/-- Claim C2: the echo handler is the identity on its argument, echo of the
string hello yields Ok hello, and with responses routed by request id,
concurrent echo calls (any processing order, i.e. any permutation of the
response list) each receive Ok of their own argument, never swapped. -/
theorem echo_identity_no_swap :
    (∀ ctx v, WorldImpl.echo ctx v = Except.ok v) ∧
    (WorldImpl.echo ⟨0⟩ "hello" = Except.ok "hello") ∧
    (∀ (ctx : Context) (reqs : List (Nat × String))
       (rs : List (Nat × Except String String)) (id : Nat) (v : String),
       rs.Perm (serverResponses ctx reqs) →
       (reqs.map Prod.fst).Nodup →
       (id, v) ∈ reqs →
       deliverTo rs id = some (Except.ok v)) := by
  refine ⟨fun ctx v => rfl, rfl, ?_⟩
  intro ctx reqs rs id v hperm hnd hmem
  have hmem2 : (id, Except.ok v) ∈ serverResponses ctx reqs := by
    have := List.mem_map_of_mem (fun r => (r.1, WorldImpl.echo ctx r.2)) hmem
    simpa [serverResponses, WorldImpl.echo] using this
  have hmem3 : (id, Except.ok v) ∈ rs := hperm.mem_iff.mpr hmem2
  have hkeys : (serverResponses ctx reqs).map Prod.fst = reqs.map Prod.fst := by
    simp [serverResponses, List.map_map]
  have hnd2 : (rs.map Prod.fst).Nodup := by
    have hp : (rs.map Prod.fst).Perm ((serverResponses ctx reqs).map Prod.fst) :=
      hperm.map Prod.fst
    rw [hkeys] at hp
    exact hp.nodup_iff.mpr hnd
  exact deliverTo_eq_of_mem rs id (Except.ok v) hmem3 hnd2

/-- Witness for C2: echo of hello is Ok hello, and with the two echo
requests (1, a) and (2, b) answered out of order, waiter 1 still receives
Ok a. -/
theorem echo_identity_no_swap_witness :
    WorldImpl.echo ⟨0⟩ "hello" = Except.ok "hello" ∧
    deliverTo [(2, Except.ok "b"), (1, Except.ok "a")] 1 =
      some (Except.ok "a") :=
  ⟨echo_identity_no_swap.1 ⟨0⟩ "hello",
   echo_identity_no_swap.2.2 ⟨0⟩ [(1, "a"), (2, "b")]
     [(2, Except.ok "b"), (1, Except.ok "a")] 1 "a"
     (List.Perm.swap (1, Except.ok "a") (2, Except.ok "b") [])
     (by decide) (by simp)⟩

/-- Claim C3: every invocation of the ping handler returns Ok Pong, and a
successful dispatch of such a call hands the caller exactly Ok Pong. -/
theorem ping_returns_pong (ctx : Context) :
    WorldImpl.ping ctx = Except.ok "Pong" ∧
    (Except.ok (WorldImpl.ping ctx) : DispatchResult) =
      Except.ok (Except.ok "Pong") :=
  ⟨rfl, rfl⟩

/-- Claim C6: the service descriptor is a fixed set of exactly three
uniquely-named operations (ping, echo, delay), each returning a Result with
String on both sides; the server handler implements exactly this set with
matching signatures and the client stub exposes exactly this set. -/
theorem service_descriptor_fixed :
    (worldDescriptor.map OpSig.name).Nodup ∧
    worldDescriptor.map OpSig.name = ["ping", "echo", "delay"] ∧
    worldImplOps = worldDescriptor ∧
    worldClientOps = worldDescriptor ∧
    worldDescriptor.all
      (fun op => op.okType == RpcType.stringT && op.errType == RpcType.stringT)
      = true := by
  refine ⟨by decide, rfl, rfl, rfl, rfl⟩

/-- Claim C7: the UI-facing stub calls return to their caller immediately
without touching the model: each synchronous step leaves the model unchanged
and, when connected, only hands the RPC to the spawner as an asynchronous
task; the awaited outcome is consumed inside that task (pingTask, echoTask,
delayTask), not in the synchronous step. -/
theorem stub_calls_nonblocking (m : Model) (v : String) (d : Nat) :
    (Model.pingStep m).1 = m ∧
    (Model.echoStep m v).1 = m ∧
    (Model.delayStep m d).1 = m ∧
    (m.connected = true →
      (Model.pingStep m).2 = [SpawnedTask.pingCall] ∧
      (Model.echoStep m v).2 = [SpawnedTask.echoCall v] ∧
      (Model.delayStep m d).2 = [SpawnedTask.delayCall d]) := by
  refine ⟨?_, ?_, ?_, ?_⟩
  · by_cases h : m.connected <;> simp [Model.pingStep, h]
  · by_cases h : m.connected <;> simp [Model.echoStep, h]
  · by_cases h : m.connected <;> simp [Model.delayStep, h]
  · intro h
    simp [Model.pingStep, Model.echoStep, Model.delayStep, h]

/-- Witness for C7: on a concrete connected model the three steps leave the
model unchanged and spawn exactly their call task. -/
theorem stub_calls_nonblocking_witness :
    (Model.pingStep { Model.create with connected := true }).1 =
      { Model.create with connected := true } ∧
    (Model.pingStep { Model.create with connected := true }).2 =
      [SpawnedTask.pingCall] :=
  ⟨(stub_calls_nonblocking { Model.create with connected := true } "x" 1).1,
   ((stub_calls_nonblocking { Model.create with connected := true } "x" 1).2.2.2
     rfl).1⟩

/-- Claim C8: with the connected flag false no task is spawned and the model
is unchanged; and a spawned call task that finds no stored client does
nothing for every dispatch outcome (its behavior is independent of any RPC
response): no request is issued, no message is sent, no field modified. -/
theorem disconnected_noop (m : Model) (v : String) (d : Nat)
    (r : DispatchResult) (h : m.connected = false) :
    Model.pingStep m = (m, []) ∧
    Model.echoStep m v = (m, []) ∧
    Model.delayStep m d = (m, []) ∧
    pingTask none r = some [] ∧
    echoTask none r = some [] ∧
    delayTask none d r = some [] := by
  refine ⟨?_, ?_, ?_, rfl, rfl, rfl⟩ <;>
    simp [Model.pingStep, Model.echoStep, Model.delayStep, h]

/-- Witness for C8: on the freshly created (disconnected) model, Ping spawns
nothing and changes nothing. -/
theorem disconnected_noop_witness :
    Model.pingStep Model.create = (Model.create, []) ∧
    pingTask none (Except.error RpcError.shutdown) = some [] :=
  ⟨(disconnected_noop Model.create "x" 1 (Except.error RpcError.shutdown)
      rfl).1,
   (disconnected_noop Model.create "x" 1 (Except.error RpcError.shutdown)
      rfl).2.2.2.1⟩

/-- Claim C9: the three bound handlers always return Ok, so the handler-level
Err branch at the caller is unreachable for this service: the delay task
applied to a handler-produced outcome sends the success message, never the
Delay-failed message (the two strings differ in length). -/
theorem handlers_never_err (ctx : Context) (v : String) (d : Nat) :
    (WorldImpl.ping ctx).isOk = true ∧
    (WorldImpl.echo ctx v).isOk = true ∧
    (WorldImpl.delay ctx d).isOk = true ∧
    delayTask (some ()) d (Except.ok (WorldImpl.delay ctx d)) =
      some [Msg.updateDelayResult ("Delayed for " ++ toString d ++ " seconds")] ∧
    delayTask (some ()) d (Except.ok (WorldImpl.delay ctx d)) ≠
      some [Msg.updateDelayResult ("Delay failed " ++ toString d)] := by
  refine ⟨rfl, rfl, rfl, rfl, ?_⟩
  intro h
  simp only [delayTask, WorldImpl.delay, Option.some.injEq, List.cons.injEq,
    Msg.updateDelayResult.injEq, and_true] at h
  have hl := congrArg String.length h
  rw [String.length_append, String.length_append, String.length_append] at hl
  have e1 : ("Delayed for ").length = 12 := rfl
  have e2 : (" seconds").length = 8 := rfl
  have e3 : ("Delay failed ").length = 13 := rfl
  rw [e1, e2, e3] at hl
  omega

/-- Claim C10: processing an UpdateDelay event panics (none) unless the input
string parses as a u64; when it parses to v, the delay field is set to v and
no other field changes. -/
theorem update_delay_parse (m : Model) (s : String) :
    (parseU64 s = none → Model.update m (Msg.updateDelay s) = none) ∧
    (∀ v, parseU64 s = some v →
      Model.update m (Msg.updateDelay s) = some ({ m with delay := v }, [])) := by
  constructor
  · intro h
    simp [Model.update, h]
  · intro v h
    simp [Model.update, h]

/-- Witness for C10: on the initial model, the input x panics the update and
the input 42 sets delay to 42 leaving every other field as created. -/
theorem update_delay_parse_witness :
    Model.update Model.create (Msg.updateDelay "x") = none ∧
    Model.update Model.create (Msg.updateDelay "42") =
      some ({ Model.create with delay := 42 }, []) :=
  ⟨(update_delay_parse Model.create "x").1 rfl,
   (update_delay_parse Model.create "42").2 42 rfl⟩

/-- Claim C1 (code evaluated at the failing input): a dispatch-level failure
(the awaited RPC future or the dispatch future resolving to an error) is
unwrapped by every call site in src/client/src/main.rs, so the spawned task
panics (none) instead of surfacing a non-fatal dispatch-level error. -/
theorem dispatch_error_unwrap_panics :
    pingTask (some ()) (Except.error RpcError.shutdown) = none ∧
    echoTask (some ()) (Except.error RpcError.shutdown) = none ∧
    delayTask (some ()) 5 (Except.error RpcError.shutdown) = none ∧
    pingTask (some ()) (Except.error RpcError.deadlineExceeded) = none ∧
    dispatchTaskRun (Except.error RpcError.shutdown) = none :=
  ⟨rfl, rfl, rfl, rfl, rfl⟩

/-- Counterexample to C4 as stated: with the handler outcome Err boom, the
delay call site sends the rewritten fixed string Delay failed 30 (not boom),
and the echo call site drops the error entirely (sends no message at all),
so the handler error string does not reach the caller's result handling. -/
theorem handler_err_rewritten_counterexample :
    delayTask (some ()) 30 (Except.ok (Except.error "boom")) =
      some [Msg.updateDelayResult "Delay failed 30"] ∧
    "Delay failed 30" ≠ "boom" ∧
    echoTask (some ()) (Except.ok (Except.error "boom")) = some [] :=
  ⟨rfl, by decide, rfl⟩

/-- Claim C4 as amended: a handler Ok string is passed through unchanged
(echo and delay send it verbatim to the model; ping only logs it); a handler
Err is not passed through: ping and echo drop it and delay replaces it with
the fixed Delay-failed string built from the duration, not from the handler
error. -/
theorem handler_outcome_surfacing (s e : String) (d : Nat) :
    echoTask (some ()) (Except.ok (Except.ok s)) =
      some [Msg.updateEchoResult s] ∧
    delayTask (some ()) d (Except.ok (Except.ok s)) =
      some [Msg.updateDelayResult s] ∧
    pingTask (some ()) (Except.ok (Except.ok s)) = some [] ∧
    pingTask (some ()) (Except.ok (Except.error e)) = some [] ∧
    echoTask (some ()) (Except.ok (Except.error e)) = some [] ∧
    delayTask (some ()) d (Except.ok (Except.error e)) =
      some [Msg.updateDelayResult ("Delay failed " ++ toString d)] :=
  ⟨rfl, rfl, rfl, rfl, rfl, rfl⟩

/-- Counterexample to C5 as stated: a completed ping call sends no message
back to the model (its success is only logged), so no result string is
stored for the ping operation; the model as created holds Pong in no result
field and processing the (empty) message list cannot change that. -/
theorem ping_result_not_stored_counterexample :
    pingTask (some ()) (Except.ok (Except.ok "Pong")) = some [] ∧
    Model.create.echo_result ≠ "Pong" ∧
    Model.create.delay_result ≠ "Pong" :=
  ⟨rfl, by decide, by decide⟩

/-- Claim C5 as amended: for echo and delay, a completed call's result string
is stored by the model as that operation's latest result (echo_result and
delay_result, read by the view alongside the connected flag); ping's result
is only logged and never stored. -/
theorem latest_result_stored (m : Model) (s : String) (d : Nat) :
    echoTask (some ()) (Except.ok (Except.ok s)) =
      some [Msg.updateEchoResult s] ∧
    Model.update m (Msg.updateEchoResult s) =
      some ({ m with echo_result := s }, []) ∧
    delayTask (some ()) d (Except.ok (Except.ok s)) =
      some [Msg.updateDelayResult s] ∧
    Model.update m (Msg.updateDelayResult s) =
      some ({ m with delay_result := s }, []) ∧
    pingTask (some ()) (Except.ok (Except.ok s)) = some [] :=
  ⟨rfl, rfl, rfl, rfl, rfl⟩
